import Mathlib

/-!
Verification of the nuage satellite-image viewer (src/main.rs) against its
natural-language specification.

The embedding models, faithfully to the Rust source:
* `previous_time` — the time-window planner;
* `get_image` — the cache-resolution / tile-fetch path, as explicit state
  passing over a modelled file system, environment and network oracle;
* the background acquisition worker loop spawned in `MyApp::new`;
* `increase_image_index` / `decrease_image_index` and the key-handling slice
  of `MyApp::update`.

Instants are modelled as whole seconds on an unbounded integer timeline
(chrono's `DateTime<Utc>` ignores leap seconds, its calendar fields are the
Euclidean divisions of the epoch offset, and its representable range is wide
enough that the `checked_sub_signed(..).unwrap()` calls never fail for any
realistic instant, so those subtractions are modelled as total).
-/

namespace Nuage

/-! ### Time-window planner: `previous_time` (src/main.rs lines 105-122) -/

/-- `now.minute()` for an instant given as seconds on the integer timeline
(`/` and `%` on `Int` are Euclidean, matching the calendar fields). -/
def minuteOf (t : Int) : Int := t / 60 % 60

/-- `previous_time` from src/main.rs.

Rust: `let to_five = minute - (minute as f32 / 5.) as u32 * 5;` — for
`minute < 60` the `f32` quotient truncates to exactly `minute / 5`, so
`to_five` is `minute` minus the multiple-of-5 floor of `minute`.  The loop
`for x in (0..120).step_by(5)` visits `x = 5 * i` for `i < 24` and pushes
`now_at_five - (x + 15) minutes`. -/
def previous_time (now : Int) : List Int :=
  let minute := minuteOf now
  let to_five := minute - minute / 5 * 5
  let now_at_five := now - to_five * 60
  let delay : Int := 15
  (List.range 24).map fun i : Nat => now_at_five - (5 * (i : Int) + delay) * 60

/-- Modelled from the claim's words (for comparison with the source): `t`
rounded down to the nearest 5-minute boundary, i.e. the largest multiple of
300 seconds that is ≤ `t`. -/
def specRoundDown5 (t : Int) : Int := 300 * (t / 300)

/-! ### Manual playback stepping
(src/main.rs lines 210-224, `MyApp::increase_image_index` /
`MyApp::decrease_image_index`) -/

/-- Rust `usize` is 64-bit unsigned on the targets at hand: `nb_images - 1`
wraps modulo `2 ^ 64` when `nb_images = 0` (release builds; debug builds
panic at the same spot). -/
def USIZE : Nat := 2 ^ 64

/-- `MyApp::decrease_image_index`.  The `nb_images - 1` in the zero branch is
a `usize` subtraction and hence wraps; `*image_index -= 1` in the other
branch cannot wrap because `image_index ≠ 0` there. -/
def decrease_image_index (image_index nb_images : Nat) : Nat :=
  if image_index = 0 then (nb_images + USIZE - 1) % USIZE
  else image_index - 1

/-- `MyApp::increase_image_index`.  The comparison is against the wrapping
`nb_images - 1`, and `*image_index += 1` wraps modulo `2 ^ 64`. -/
def increase_image_index (image_index nb_images : Nat) : Nat :=
  if image_index = (nb_images + USIZE - 1) % USIZE then 0
  else (image_index + 1) % USIZE

/-- The key events a frame of `MyApp::update` reacts to: `ArrowRight`,
`ArrowLeft`, `Space`. -/
structure Input where
  right : Bool
  left : Bool
  space : Bool
  deriving DecidableEq, Repr

/-- The playback state mutated by `MyApp::update`. -/
structure PState where
  image_index : Nat
  auto_play : Bool
  deriving DecidableEq, Repr

/-- The key-handling slice of `MyApp::update` (src/main.rs lines 255-267),
executed in source order: `ArrowRight` leaves auto-play and steps the index
down, `ArrowLeft` leaves auto-play and steps it up, `Space` toggles
auto-play.  (The preceding auto-play index assignment, lines 245-251, is
`f64`-arithmetic and is not part of this slice.) -/
def handle_input (st : PState) (nb_images : Nat) (inp : Input) : PState :=
  let st1 := if inp.right then
      { auto_play := false,
        image_index := decrease_image_index st.image_index nb_images }
    else st
  let st2 := if inp.left then
      { auto_play := false,
        image_index := increase_image_index st1.image_index nb_images }
    else st1
  if inp.space then { st2 with auto_play := !st2.auto_play } else st2

/-! ### Helper lemmas for the index arithmetic -/

theorem wrap_pred_eq (nb : Nat) (h1 : 1 ≤ nb) (h3 : nb < USIZE) :
    (nb + USIZE - 1) % USIZE = nb - 1 := by
  have hU : USIZE = 18446744073709551616 := by norm_num [USIZE]
  rw [hU] at h3 ⊢
  omega

theorem decrease_image_index_eq (idx nb : Nat) (h1 : 1 ≤ nb) (h3 : nb < USIZE) :
    decrease_image_index idx nb = if idx = 0 then nb - 1 else idx - 1 := by
  simp only [decrease_image_index, wrap_pred_eq nb h1 h3]

theorem increase_image_index_eq (idx nb : Nat) (h1 : 1 ≤ nb) (h2 : idx < nb)
    (h3 : nb < USIZE) :
    increase_image_index idx nb = if idx = nb - 1 then 0 else idx + 1 := by
  simp only [increase_image_index, wrap_pred_eq nb h1 h3]
  split
  · rfl
  · exact Nat.mod_eq_of_lt (by omega)

/-! ### Claim theorems about the planner and the stepping -/

/-- C1 (amended): for every instant `t`, `previous_time t` returns exactly 24
slots, consecutive slots exactly 5 minutes (300 s) apart in strictly
descending order, and every slot is ≤ (`t` with its minute-of-hour rounded
down to a multiple of 5 but its sub-minute part kept) − 15 minutes, hence
≤ `t` − 15 minutes.  (The bound with `t` rounded down to an exact 5-minute
boundary fails when `t` has nonzero seconds — see the counterexample.) -/
theorem previous_time_spec (t : Int) :
    (previous_time t).length = 24 ∧
    (∀ i, i + 1 < (previous_time t).length →
      (previous_time t).getD i 0 = (previous_time t).getD (i + 1) 0 + 300) ∧
    (∀ s ∈ previous_time t,
      s ≤ t - minuteOf t % 5 * 60 - 900 ∧ s ≤ t - 900) := by
  have hlen : (previous_time t).length = 24 := by
    simp only [previous_time, List.length_map, List.length_range]
  refine ⟨hlen, ?_, ?_⟩
  · intro i hi
    rw [List.getD_eq_getElem _ _ (by omega), List.getD_eq_getElem _ _ (by omega)]
    simp only [previous_time, List.getElem_map, List.getElem_range]
    push_cast
    ring
  · intro s hs
    simp only [previous_time, List.mem_map, List.mem_range] at hs
    obtain ⟨i, hi, rfl⟩ := hs
    simp only [minuteOf]
    constructor <;> omega

/-- C1 counterexample: at `t = 1728000030` (2024-10-04 00:00:30 UTC, thirty
seconds past a 5-minute boundary) the most recent slot produced by
`previous_time` is 1727999130, which exceeds
`specRoundDown5 t - 900 = 1727999100`: the code subtracts whole minutes only
and keeps the seconds of `now`, so the slots are not bounded by
(`t` rounded down to a 5-minute boundary) − 15 minutes. -/
theorem previous_time_roundDown_counterexample :
    (previous_time 1728000030).getD 0 0 = 1727999130 ∧
    specRoundDown5 1728000030 - 900 = 1727999100 ∧
    ¬ ((1727999130 : Int) ≤ 1727999100) := by
  refine ⟨by decide, by decide, by decide⟩

/-- C5: each single key event behaves as specified when the buffer is
non-empty and the index in range: `ArrowRight` switches to manual and steps
the index by −1 wrapping `0 ↦ nb − 1`, `ArrowLeft` switches to manual and
steps by +1 wrapping `nb − 1 ↦ 0`, and `Space` toggles auto-play in both
directions leaving the index unchanged. -/
theorem handle_input_spec (idx nb : Nat) (ap : Bool)
    (h1 : 1 ≤ nb) (h2 : idx < nb) (h3 : nb < USIZE) :
    handle_input ⟨idx, ap⟩ nb ⟨true, false, false⟩
      = ⟨if idx = 0 then nb - 1 else idx - 1, false⟩ ∧
    handle_input ⟨idx, ap⟩ nb ⟨false, true, false⟩
      = ⟨if idx = nb - 1 then 0 else idx + 1, false⟩ ∧
    handle_input ⟨idx, ap⟩ nb ⟨false, false, true⟩ = ⟨idx, !ap⟩ ∧
    handle_input ⟨0, ap⟩ nb ⟨true, false, false⟩ = ⟨nb - 1, false⟩ ∧
    handle_input ⟨nb - 1, ap⟩ nb ⟨false, true, false⟩ = ⟨0, false⟩ := by
  have hd := decrease_image_index_eq idx nb h1 h3
  have hi := increase_image_index_eq idx nb h1 h2 h3
  have hd0 := decrease_image_index_eq 0 nb h1 h3
  have hip : nb - 1 < nb := by omega
  have hil := increase_image_index_eq (nb - 1) nb h1 hip h3
  refine ⟨?_, ?_, ?_, ?_, ?_⟩ <;>
    simp_all [handle_input]

/-- C5 witness: the claim theorem instantiated at `idx = 2`, `nb = 5`,
`auto_play = true`. -/
theorem handle_input_spec_witness :
    ((1 ≤ 5 ∧ 2 < 5 ∧ 5 < USIZE) ∧
      (handle_input ⟨2, true⟩ 5 ⟨true, false, false⟩
          = ⟨if 2 = 0 then 5 - 1 else 2 - 1, false⟩ ∧
        handle_input ⟨2, true⟩ 5 ⟨false, true, false⟩
          = ⟨if 2 = 5 - 1 then 0 else 2 + 1, false⟩ ∧
        handle_input ⟨2, true⟩ 5 ⟨false, false, true⟩ = ⟨2, !true⟩ ∧
        handle_input ⟨0, true⟩ 5 ⟨true, false, false⟩ = ⟨5 - 1, false⟩ ∧
        handle_input ⟨5 - 1, true⟩ 5 ⟨false, true, false⟩ = ⟨0, false⟩)) :=
  ⟨⟨by norm_num, by norm_num, by norm_num [USIZE]⟩,
    handle_input_spec 2 5 true (by norm_num) (by norm_num) (by norm_num [USIZE])⟩

/-- C10: `decrease_image_index` at index 0 computes `nb_images - 1` on a
`usize`, which wraps to `2 ^ 64 − 1` when `nb_images = 0`; under the
precondition `nb_images ≥ 1` (established by the blocking wait before every
call site, and never invalidated since the buffer only grows) the wrap never
happens, both functions are total and both results stay below
`nb_images`. -/
theorem image_index_step_total (idx nb : Nat) (h1 : 1 ≤ nb) (h2 : idx < nb)
    (h3 : nb < USIZE) :
    decrease_image_index 0 0 = USIZE - 1 ∧
    (nb + USIZE - 1) % USIZE = nb - 1 ∧
    decrease_image_index idx nb = (if idx = 0 then nb - 1 else idx - 1) ∧
    increase_image_index idx nb = (if idx = nb - 1 then 0 else idx + 1) ∧
    decrease_image_index idx nb < nb ∧
    increase_image_index idx nb < nb := by
  have hU : USIZE = 18446744073709551616 := by norm_num [USIZE]
  refine ⟨?_, wrap_pred_eq nb h1 h3, decrease_image_index_eq idx nb h1 h3,
    increase_image_index_eq idx nb h1 h2 h3, ?_, ?_⟩
  · simp [decrease_image_index, hU]
  · rw [decrease_image_index_eq idx nb h1 h3]
    split <;> omega
  · rw [increase_image_index_eq idx nb h1 h2 h3]
    split <;> omega

/-- C10 witness: the claim theorem instantiated at `idx = 0`, `nb = 3`. -/
theorem image_index_step_total_witness :
    ((1 ≤ 3 ∧ 0 < 3 ∧ 3 < USIZE) ∧
      (decrease_image_index 0 0 = USIZE - 1 ∧
        (3 + USIZE - 1) % USIZE = 3 - 1 ∧
        decrease_image_index 0 3 = (if 0 = 0 then 3 - 1 else 0 - 1) ∧
        increase_image_index 0 3 = (if 0 = 3 - 1 then 0 else 0 + 1) ∧
        decrease_image_index 0 3 < 3 ∧
        increase_image_index 0 3 < 3)) :=
  ⟨⟨by norm_num, by norm_num, by norm_num [USIZE]⟩,
    image_index_step_total 0 3 (by norm_num) (by norm_num) (by norm_num [USIZE])⟩

/-! ### The acquisition worker (src/main.rs lines 169-197, the thread spawned
in `MyApp::new`) -/

/-- A decoded raster image — the payload carried by `image::RgbImage`:
dimensions plus an abstract pixel buffer. -/
structure Img where
  width : Nat
  height : Nat
  pixels : List Nat
  deriving DecidableEq, Repr

/-- One entry of the shared buffer: `struct SatImage` (image + timestamp). -/
structure SatImage where
  image : Img
  timestamp : Int
  deriving DecidableEq, Repr

/-- The shared state the worker writes: the `sat_images` vector, the
`downloading` flag, and the number of `cvar.notify_one()` calls issued. -/
structure WorkerState where
  buffer : List SatImage
  downloading : Bool
  signals : Nat
  deriving DecidableEq, Repr

/-- `Mutex::new(Vec::new())` plus `Mutex::new(true)`: the state before the
worker thread starts. -/
def initWorkerState : WorkerState :=
  { buffer := [], downloading := true, signals := 0 }

/-- One iteration of the worker's `for timepoint in timepoints` loop.
`fetch tp` models the outcome of the `get_image(..)` call for slot `tp`
(`some img` for the `Ok(image)` arm, `none` for the `_ => {}` arm): on
success the tile and its timestamp are appended and one waiter is woken, on
failure the slot is skipped. -/
def workerStep (fetch : Int → Option Img) (st : WorkerState) (tp : Int) :
    WorkerState :=
  match fetch tp with
  | some img =>
      { st with buffer := st.buffer ++ [⟨img, tp⟩], signals := st.signals + 1 }
  | none => st

/-- The states the worker passes through, one after each loop iteration,
ending with the state after `*downloading.lock().unwrap() = false;`. -/
def workerStates (fetch : Int → Option Img) :
    WorkerState → List Int → List WorkerState
  | st, [] => [{ st with downloading := false }]
  | st, tp :: rest =>
      let st1 := workerStep fetch st tp
      st1 :: workerStates fetch st1 rest

/-- The observable trace of the worker thread, starting from the initial
state. -/
def workerTrace (fetch : Int → Option Img) (slots : List Int) :
    List WorkerState :=
  initWorkerState :: workerStates fetch initWorkerState slots

/-- The worker's final state. -/
def runWorker (fetch : Int → Option Img) (slots : List Int) : WorkerState :=
  { slots.foldl (workerStep fetch) initWorkerState with downloading := false }

/-- The buffer entry produced for slot `tp`, when `get_image` succeeds. -/
def slotEntry (fetch : Int → Option Img) (tp : Int) : Option SatImage :=
  (fetch tp).map fun img => SatImage.mk img tp

theorem workerFold_buffer (fetch : Int → Option Img) (slots : List Int)
    (st : WorkerState) :
    (slots.foldl (workerStep fetch) st).buffer
      = st.buffer ++ slots.filterMap (slotEntry fetch) := by
  induction slots generalizing st with
  | nil => simp
  | cons tp rest ih =>
      simp only [List.foldl_cons, List.filterMap_cons, ih]
      cases h : fetch tp <;> simp [workerStep, slotEntry, h]

theorem workerFold_signals (fetch : Int → Option Img) (slots : List Int)
    (st : WorkerState) :
    (slots.foldl (workerStep fetch) st).signals
      = st.signals + (slots.filterMap (slotEntry fetch)).length := by
  induction slots generalizing st with
  | nil => simp
  | cons tp rest ih =>
      simp only [List.foldl_cons, List.filterMap_cons, ih]
      cases h : fetch tp <;>
        simp [workerStep, slotEntry, h, Nat.add_assoc, Nat.add_comm 1]

theorem workerFold_downloading (fetch : Int → Option Img) (slots : List Int)
    (st : WorkerState) :
    (slots.foldl (workerStep fetch) st).downloading = st.downloading := by
  induction slots generalizing st with
  | nil => rfl
  | cons tp rest ih =>
      simp only [List.foldl_cons, ih]
      cases h : fetch tp <;> simp [workerStep, h]

theorem filterMap_slotEntry_length (fetch : Int → Option Img)
    (slots : List Int) :
    (slots.filterMap (slotEntry fetch)).length
      = slots.length - slots.countP fun tp => (fetch tp).isNone := by
  induction slots with
  | nil => rfl
  | cons tp rest ih =>
      have hle : (rest.countP fun tp => (fetch tp).isNone) ≤ rest.length :=
        List.countP_le_length _
      cases h : fetch tp <;>
        (simp [List.filterMap_cons, List.countP_cons, slotEntry, h, ih];
          try omega)

theorem workerStates_downloading_map (fetch : Int → Option Img)
    (slots : List Int) (st : WorkerState) :
    (workerStates fetch st slots).map (fun s => s.downloading)
      = List.replicate slots.length st.downloading ++ [false] := by
  induction slots generalizing st with
  | nil => rfl
  | cons tp rest ih =>
      have hstep : (workerStep fetch st tp).downloading = st.downloading := by
        cases h : fetch tp <;> simp [workerStep, h]
      simp only [workerStates, List.map_cons, List.length_cons,
        List.replicate_succ, ih, hstep, List.cons_append]

/-- C3: the worker processes the planner's slots strictly in order; for each
slot, on success it appends the tile with its timestamp to the shared buffer
and wakes one waiter, on failure it skips the slot and continues; when
exactly `k` of the 24 slots fail the buffer ends with exactly `24 − k`
entries; the `downloading` flag is `true` at every point of the trace except
after the last slot, where it becomes `false` and is never set again. -/
theorem worker_spec (fetch : Int → Option Img) (t : Int) :
    (runWorker fetch (previous_time t)).buffer
      = (previous_time t).filterMap (slotEntry fetch) ∧
    (runWorker fetch (previous_time t)).buffer.length
      = 24 - ((previous_time t).countP fun tp => (fetch tp).isNone) ∧
    (runWorker fetch (previous_time t)).downloading = false ∧
    (runWorker fetch (previous_time t)).signals
      = (runWorker fetch (previous_time t)).buffer.length ∧
    (workerTrace fetch (previous_time t)).map (fun st => st.downloading)
      = List.replicate ((previous_time t).length + 1) true ++ [false] := by
  have hlen : (previous_time t).length = 24 := by
    simp only [previous_time, List.length_map, List.length_range]
  have hbuf := workerFold_buffer fetch (previous_time t) initWorkerState
  have hsig := workerFold_signals fetch (previous_time t) initWorkerState
  simp only [initWorkerState, List.nil_append] at hbuf hsig
  refine ⟨?_, ?_, rfl, ?_, ?_⟩
  · simpa [runWorker] using hbuf
  · rw [show (runWorker fetch (previous_time t)).buffer
          = (previous_time t).filterMap (slotEntry fetch) by
        simpa [runWorker] using hbuf]
    rw [filterMap_slotEntry_length, hlen]
  · rw [show (runWorker fetch (previous_time t)).buffer
          = (previous_time t).filterMap (slotEntry fetch) by
        simpa [runWorker] using hbuf]
    simpa [runWorker] using hsig
  · simp only [workerTrace, List.map_cons,
      workerStates_downloading_map fetch (previous_time t) initWorkerState,
      hlen]
    rfl

/-! ### The tile cache / tile fetcher: `get_image` (src/main.rs lines 28-95)

`get_image` is embedded as explicit state passing.  The pieces of the outside
world it touches are modelled as data:

* the process environment (`USER`, `XDG_CACHE_HOME`);
* the local file system: a map from paths to the content a later
  `ImageReader::open(..).decode()` would produce, the set of existing
  directories, and failure switches for `create_dir_all` and
  `DynamicImage::save` (`std::fs::exists` is modelled as total);
* the network: a function from the request URL to the observed response.

The `f32` arithmetic choosing the resize dimensions together with the image
crate's scaler is abstracted into an arbitrary function `resizeFn`, and the
save-to-JPEG-then-decode round trip into `persistAs` (the file content a
saved image yields when read back).  None of the claims settled here depend
on either. -/

/-- What decoding a cached file yields: a 3-channel RGB raster
(`DynamicImage::ImageRgb8`), some other channel layout (the `_` arm of the
final `match` in `get_image`), or bytes that do not decode at all. -/
inductive FileContent
  | rgb (img : Img)
  | nonRgb
  | corrupt
  deriving DecidableEq, Repr

/-- Association-list file system: the first binding for a path wins. -/
def lookupFC : List (String × FileContent) → String → Option FileContent
  | [], _ => none
  | e :: rest, p => if e.1 = p then some e.2 else lookupFC rest p

structure Disk where
  files : List (String × FileContent)
  dirs : List String
  createDirFails : Bool
  writeFails : Bool
  deriving DecidableEq, Repr

structure Env where
  user : Option String
  xdgCacheHome : Option String
  deriving DecidableEq, Repr

/-- The state threaded through `get_image`; `fetchCount` counts network
round trips (`ureq::get(url).call()`). -/
structure World where
  disk : Disk
  fetchCount : Nat
  deriving DecidableEq, Repr

/-- What the network returns for a request: a transport-level failure, or a
response with an HTTP status, a body length in bytes, and the image the body
decodes to (`none` when `image::load_from_memory` would fail). -/
inductive NetResult
  | transportError
  | response (status : Nat) (bodyLen : Nat) (decodesTo : Option Img)

/-- The distinguishable error values `get_image` reports (in the Rust source
they are distinct error types carried inside `Box<dyn Error>`). -/
inductive GErr
  | createDirFailed
  | networkError
  | httpStatus (code : Nat)
  | oversizedBody
  | decodeFailed
  | saveFailed
  | readOpenFailed
  | readDecodeFailed
  | unsupportedJpegType
  deriving DecidableEq, Repr

/-- Outcome of a `get_image` call: a panic (an `unwrap` firing), an error
returned to the caller, or a decoded RGB image. -/
inductive GResult
  | panicked
  | err (e : GErr)
  | ok (img : Img)
  deriving DecidableEq, Repr

/-- The `(year, month, day, hour, minute, zoom, x1, y1, x2, y2)` argument
tuple of `get_image`. -/
structure TileKey where
  year : Int
  month : Nat
  day : Nat
  hour : Nat
  minute : Nat
  zoom : Nat
  x1 : Nat
  y1 : Nat
  x2 : Nat
  y2 : Nat
  deriving DecidableEq, Repr

/-- Rust's `{:0>2}` format: left-pad with `0` to width 2. -/
def pad2 (n : Nat) : String :=
  if n < 10 then "0" ++ toString n else toString n

/-- `{}{:0>2}{:0>2}{:0>2}{:0>2}` applied to (year, month, day, hour, minute),
shared by the cache file name and the URL. -/
def stamp (k : TileKey) : String :=
  toString k.year ++ pad2 k.month ++ pad2 k.day ++ pad2 k.hour ++ pad2 k.minute

/-- `standard_cache_folder` (from `XDG_CACHE_HOME`, falling back to
`/home/user/.cache`) plus the fixed `nuage/` subdirectory. -/
def nuageCacheFolder (username : String) (xdg : Option String) : String :=
  (xdg.getD ("/home/" ++ username ++ "/.cache")) ++ "/nuage/"

/-- The deterministic cache path derived from all key fields (note the Rust
format string inserts another `/` after the folder, which itself already
ends in `/`). -/
def cacheFilePath (username : String) (xdg : Option String) (k : TileKey) :
    String :=
  nuageCacheFolder username xdg ++ "/" ++ stamp k ++ "_" ++ toString k.zoom
    ++ "_" ++ toString k.x1 ++ "_" ++ toString k.y1 ++ "_" ++ toString k.x2
    ++ "_" ++ toString k.y2 ++ ".jpg"

/-- The templated request URL. -/
def tileUrl (k : TileKey) : String :=
  "https://imn-rust-lb.infoplaza.io/v4/nowcast/tiles/satellite-europe/"
    ++ stamp k ++ "/" ++ toString k.zoom ++ "/" ++ toString k.x1 ++ "/"
    ++ toString k.y1 ++ "/" ++ toString k.x2 ++ "/" ++ toString k.y2
    ++ "?outputtype=jpeg"

/-- The read-back at the end of `get_image`:
`image::ImageReader::open(filepath)?.decode()?` followed by the `match` that
accepts only `ImageRgb8`. -/
def readBack (files : List (String × FileContent)) (path : String) : GResult :=
  match lookupFC files path with
  | none => .err .readOpenFailed
  | some .corrupt => .err .readDecodeFailed
  | some .nonRgb => .err .unsupportedJpegType
  | some (.rgb img) => .ok img

/-- `get_image` from src/main.rs, as explicit state passing.

* `std::env::var("USER").unwrap()` panics when `USER` is unset — the
  `.panicked` outcome.
* `ureq::get(url).call()?` fails on transport errors and (by ureq's default
  `http_status_as_error`) on non-2xx statuses; the body read is capped at
  `20 * 1024 * 1024` bytes; `image::load_from_memory` fails on undecodable
  bytes; `resized_img.save(&filepath)?` fails when the disk's write switch
  is on.
* whether or not a fetch happened, the result is read back from the cache
  file. -/
def get_image (env : Env) (net : String → NetResult) (resizeFn : Img → Img)
    (persistAs : Img → FileContent) (k : TileKey) (w : World) :
    GResult × World :=
  match env.user with
  | none => (.panicked, w)
  | some username =>
    match (if nuageCacheFolder username env.xdgCacheHome ∈ w.disk.dirs then
             some w.disk
           else if w.disk.createDirFails then none
           else some { w.disk with
             dirs := nuageCacheFolder username env.xdgCacheHome
               :: w.disk.dirs }) with
    | none => (.err .createDirFailed, w)
    | some disk1 =>
      match lookupFC disk1.files (cacheFilePath username env.xdgCacheHome k) with
      | some _ =>
          (readBack disk1.files (cacheFilePath username env.xdgCacheHome k),
            { w with disk := disk1 })
      | none =>
        match net (tileUrl k) with
        | .transportError =>
            (.err .networkError,
              { disk := disk1, fetchCount := w.fetchCount + 1 })
        | .response status bodyLen decodesTo =>
          if status < 200 ∨ 300 ≤ status then
            (.err (.httpStatus status),
              { disk := disk1, fetchCount := w.fetchCount + 1 })
          else if 20 * 1024 * 1024 < bodyLen then
            (.err .oversizedBody,
              { disk := disk1, fetchCount := w.fetchCount + 1 })
          else
            match decodesTo with
            | none =>
                (.err .decodeFailed,
                  { disk := disk1, fetchCount := w.fetchCount + 1 })
            | some img =>
              if disk1.writeFails then
                (.err .saveFailed,
                  { disk := disk1, fetchCount := w.fetchCount + 1 })
              else
                (readBack
                    ((cacheFilePath username env.xdgCacheHome k,
                      persistAs (resizeFn img)) :: disk1.files)
                    (cacheFilePath username env.xdgCacheHome k),
                  { disk := { disk1 with
                      files := (cacheFilePath username env.xdgCacheHome k,
                        persistAs (resizeFn img)) :: disk1.files },
                    fetchCount := w.fetchCount + 1 })

/-! ### Helper lemmas about `get_image` -/

theorem readBack_ok (files : List (String × FileContent)) (path : String)
    (img : Img) (h : readBack files path = .ok img) :
    lookupFC files path = some (.rgb img) := by
  unfold readBack at h
  split at h
  · exact absurd h (by simp)
  · exact absurd h (by simp)
  · exact absurd h (by simp)
  · injection h with h2
    subst h2
    assumption

theorem readBack_ok_iff (files : List (String × FileContent)) (path : String)
    (img : Img) :
    readBack files path = .ok img ↔ lookupFC files path = some (.rgb img) := by
  constructor
  · exact readBack_ok files path img
  · intro h
    unfold readBack
    rw [h]

theorem readBack_ne_panicked (files : List (String × FileContent))
    (path : String) : readBack files path ≠ .panicked := by
  unfold readBack
  split <;> simp

/-- Facts about the directory-creation step, given that it succeeded. -/
theorem dir_step_facts (d : Disk) (folder : String) (disk1 : Disk)
    (heq : (if folder ∈ d.dirs then some d
            else if d.createDirFails then none
            else some { d with dirs := folder :: d.dirs }) = some disk1) :
    folder ∈ disk1.dirs ∧ disk1.files = d.files
      ∧ disk1.writeFails = d.writeFails := by
  split at heq
  · injection heq with h1
    subst h1
    exact ⟨by assumption, rfl, rfl⟩
  · split at heq
    · exact Option.noConfusion heq
    · injection heq with h1
      subst h1
      exact ⟨List.mem_cons_self _ _, rfl, rfl⟩

/-- Inversion of a successful `get_image` call: the user was set, and
afterwards the cache directory exists, the artifact sits at the
deterministic cache path decoding to exactly the returned image, and at most
one network round trip happened. -/
theorem get_image_ok_cases (env : Env) (net : String → NetResult)
    (resizeFn : Img → Img) (persistAs : Img → FileContent) (k : TileKey)
    (w w' : World) (img : Img)
    (h : get_image env net resizeFn persistAs k w = (.ok img, w')) :
    ∃ u, env.user = some u ∧
      nuageCacheFolder u env.xdgCacheHome ∈ w'.disk.dirs ∧
      lookupFC w'.disk.files (cacheFilePath u env.xdgCacheHome k)
        = some (.rgb img) ∧
      w'.fetchCount ≤ w.fetchCount + 1 := by
  unfold get_image at h
  cases hu : env.user with
  | none =>
      rw [hu] at h
      exact absurd h (by simp)
  | some u =>
      simp only [hu] at h
      refine ⟨u, rfl, ?_⟩
      split at h
      · exact absurd h (by simp)
      · rename_i disk1 heq1
        obtain ⟨hmem, hfiles, hwf⟩ := dir_step_facts w.disk _ disk1 heq1
        split at h
        · rename_i fc heq2
          injection h with h1 h2
          subst h2
          exact ⟨hmem, readBack_ok _ _ _ h1, Nat.le_succ _⟩
        · rename_i heq2
          split at h
          · exact absurd h (by simp)
          · rename_i status bodyLen decodesTo heq3
            split at h
            · exact absurd h (by simp)
            · split at h
              · exact absurd h (by simp)
              · split at h
                · exact absurd h (by simp)
                · rename_i img2
                  split at h
                  · exact absurd h (by simp)
                  · injection h with h1 h2
                    subst h2
                    exact ⟨hmem, readBack_ok _ _ _ h1, Nat.le_refl _⟩

/-- A call whose key already has an RGB artifact at its cache path, in a
world whose cache directory exists, is a pure cache read: it returns the
decoded artifact and leaves the world untouched. -/
theorem get_image_cache_hit (env : Env) (net : String → NetResult)
    (resizeFn : Img → Img) (persistAs : Img → FileContent) (k : TileKey)
    (w : World) (u : String) (img : Img) (hu : env.user = some u)
    (hdir : nuageCacheFolder u env.xdgCacheHome ∈ w.disk.dirs)
    (hfile : lookupFC w.disk.files (cacheFilePath u env.xdgCacheHome k)
      = some (.rgb img)) :
    get_image env net resizeFn persistAs k w = (.ok img, w) := by
  unfold get_image
  simp only [hu, hdir, if_true, hfile, readBack]

/-! ### Claim theorems about `get_image` -/

/-- C2: cache resolution is idempotent.  If a `get_image` call returns an
image, then calling it again with the same key and unchanged environment /
network, with no external file deletion, returns the bit-identical image and
performs no further network fetch — the second call reads the artifact back
from the deterministic cache path and leaves the world exactly as it was;
moreover the first call performed at most one network fetch. -/
theorem get_image_idempotent (env : Env) (net : String → NetResult)
    (resizeFn : Img → Img) (persistAs : Img → FileContent) (k : TileKey)
    (w : World) (img : Img)
    (h : (get_image env net resizeFn persistAs k w).1 = .ok img) :
    get_image env net resizeFn persistAs k
        ((get_image env net resizeFn persistAs k w).2)
      = (.ok img, (get_image env net resizeFn persistAs k w).2) ∧
    ((get_image env net resizeFn persistAs k w).2).fetchCount
      ≤ w.fetchCount + 1 := by
  have hp : get_image env net resizeFn persistAs k w
      = (.ok img, (get_image env net resizeFn persistAs k w).2) := by
    rw [← h]
  obtain ⟨u, hu, hdir, hfile, hcount⟩ :=
    get_image_ok_cases env net resizeFn persistAs k w _ img hp
  exact ⟨get_image_cache_hit env net resizeFn persistAs k _ u img hu hdir hfile,
    hcount⟩

set_option maxHeartbeats 1000000 in
/-- C9: provided `USER` is set and the modelled file system is consistent
(a file under the cache directory implies the directory exists), `get_image`
returns `ok img` exactly when the artifact at the deterministic cache path
in the post-state decodes to the 3-channel RGB raster `img`; any other
channel layout (or undecodable content) at that path yields an error, so
every image a successful call hands to the shared buffer is 3-channel
RGB. -/
theorem get_image_ok_iff_rgb (env : Env) (net : String → NetResult)
    (resizeFn : Img → Img) (persistAs : Img → FileContent) (k : TileKey)
    (w : World) (u : String) (img : Img)
    (henv : env.user = some u)
    (hwf : lookupFC w.disk.files (cacheFilePath u env.xdgCacheHome k) = none
      ∨ nuageCacheFolder u env.xdgCacheHome ∈ w.disk.dirs) :
    (get_image env net resizeFn persistAs k w).1 = .ok img ↔
    lookupFC (get_image env net resizeFn persistAs k w).2.disk.files
        (cacheFilePath u env.xdgCacheHome k) = some (.rgb img) := by
  obtain ⟨r, w2, hrw⟩ : ∃ r w2,
      get_image env net resizeFn persistAs k w = (r, w2) := ⟨_, _, rfl⟩
  rw [hrw]
  unfold get_image at hrw
  simp only [henv] at hrw
  split at hrw
  · rename_i heq1
    injection hrw with h1 h2
    subst h1
    subst h2
    split at heq1
    · exact absurd heq1 (by simp)
    · rename_i hnotmem
      split at heq1
      · rcases hwf with hnone | hmem
        · simp [hnone]
        · exact absurd hmem hnotmem
      · exact absurd heq1 (by simp)
  · rename_i disk1 heq1
    obtain ⟨hmem, hfiles, hwfails⟩ := dir_step_facts w.disk _ disk1 heq1
    split at hrw
    · rename_i fc heq2
      injection hrw with h1 h2
      subst h1
      subst h2
      exact readBack_ok_iff disk1.files _ img
    · rename_i heq2
      split at hrw
      · injection hrw with h1 h2
        subst h1
        subst h2
        simp [heq2]
      · rename_i status bodyLen decodesTo heq3
        split at hrw
        · injection hrw with h1 h2
          subst h1
          subst h2
          simp [heq2]
        · split at hrw
          · injection hrw with h1 h2
            subst h1
            subst h2
            simp [heq2]
          · split at hrw
            · injection hrw with h1 h2
              subst h1
              subst h2
              simp [heq2]
            · rename_i img2
              split at hrw
              · injection hrw with h1 h2
                subst h1
                subst h2
                simp [heq2]
              · injection hrw with h1 h2
                subst h1
                subst h2
                exact readBack_ok_iff _ _ img

set_option maxHeartbeats 1000000 in
theorem get_image_ne_panicked (env : Env) (net : String → NetResult)
    (resizeFn : Img → Img) (persistAs : Img → FileContent) (k : TileKey)
    (w : World) (u : String) (henv : env.user = some u) :
    (get_image env net resizeFn persistAs k w).1 ≠ .panicked := by
  obtain ⟨r, w2, hrw⟩ : ∃ r w2,
      get_image env net resizeFn persistAs k w = (r, w2) := ⟨_, _, rfl⟩
  rw [hrw]
  unfold get_image at hrw
  simp only [henv] at hrw
  split at hrw
  · injection hrw with h1 h2
    subst h1
    simp
  · split at hrw
    · injection hrw with h1 h2
      subst h1
      exact readBack_ne_panicked _ _
    · split at hrw
      · injection hrw with h1 h2
        subst h1
        simp
      · split at hrw
        · injection hrw with h1 h2
          subst h1
          simp
        · split at hrw
          · injection hrw with h1 h2
            subst h1
            simp
          · split at hrw
            · injection hrw with h1 h2
              subst h1
              simp
            · split at hrw
              · injection hrw with h1 h2
                subst h1
                simp
              · injection hrw with h1 h2
                subst h1
                exact readBack_ne_panicked _ _

/-- C8 (amended): provided the `USER` environment variable is set
(`get_image` unconditionally unwraps `std::env::var("USER")`, which panics
when it is unset — see the counterexample), the acquisition path does not
panic, and each failure mode — cache-directory creation failure, network
transport error, non-2xx response, body over the 20 MiB cap, undecodable
image bytes, filesystem write failure — is reported to the caller as its own
distinguishable error value; the worker loop swallows per-slot errors and
always terminates with the `downloading` flag cleared. -/
theorem get_image_error_reporting (env : Env) (net : String → NetResult)
    (resizeFn : Img → Img) (persistAs : Img → FileContent) (k : TileKey)
    (w : World) (u : String) (henv : env.user = some u) :
    (get_image env net resizeFn persistAs k w).1 ≠ .panicked ∧
    (nuageCacheFolder u env.xdgCacheHome ∉ w.disk.dirs →
      w.disk.createDirFails = true →
      (get_image env net resizeFn persistAs k w).1 = .err .createDirFailed) ∧
    (nuageCacheFolder u env.xdgCacheHome ∈ w.disk.dirs →
      lookupFC w.disk.files (cacheFilePath u env.xdgCacheHome k) = none →
      ((net (tileUrl k) = .transportError →
          (get_image env net resizeFn persistAs k w).1
            = .err .networkError) ∧
        (∀ status bodyLen decodesTo,
          net (tileUrl k) = .response status bodyLen decodesTo →
          status < 200 ∨ 300 ≤ status →
          (get_image env net resizeFn persistAs k w).1
            = .err (.httpStatus status)) ∧
        (∀ status bodyLen decodesTo,
          net (tileUrl k) = .response status bodyLen decodesTo →
          200 ≤ status → status < 300 → 20 * 1024 * 1024 < bodyLen →
          (get_image env net resizeFn persistAs k w).1
            = .err .oversizedBody) ∧
        (∀ status bodyLen,
          net (tileUrl k) = .response status bodyLen none →
          200 ≤ status → status < 300 → bodyLen ≤ 20 * 1024 * 1024 →
          (get_image env net resizeFn persistAs k w).1
            = .err .decodeFailed) ∧
        (∀ status bodyLen img,
          net (tileUrl k) = .response status bodyLen (some img) →
          200 ≤ status → status < 300 → bodyLen ≤ 20 * 1024 * 1024 →
          w.disk.writeFails = true →
          (get_image env net resizeFn persistAs k w).1
            = .err .saveFailed))) ∧
    (∀ fetch slots, (runWorker fetch slots).downloading = false) := by
  refine ⟨get_image_ne_panicked env net resizeFn persistAs k w u henv,
    ?_, ?_, fun fetch slots => rfl⟩
  · intro hnm hcdf
    unfold get_image
    simp [henv, hnm, hcdf]
  · intro hmem hnone
    refine ⟨?_, ?_, ?_, ?_, ?_⟩
    · intro hnet
      unfold get_image
      simp [henv, hmem, hnone, hnet]
    · intro status bodyLen decodesTo hnet hbad
      unfold get_image
      simp [henv, hmem, hnone, hnet, hbad]
    · intro status bodyLen decodesTo hnet h200 h300 hbig
      have hnotbad : ¬(status < 200 ∨ 300 ≤ status) := by omega
      unfold get_image
      simp [henv, hmem, hnone, hnet, hnotbad, hbig]
    · intro status bodyLen hnet h200 h300 hsz
      have hnotbad : ¬(status < 200 ∨ 300 ≤ status) := by omega
      have hnotbig : ¬(20 * 1024 * 1024 < bodyLen) := by omega
      unfold get_image
      simp [henv, hmem, hnone, hnet, hnotbad, hnotbig]
    · intro status bodyLen img hnet h200 h300 hsz hwfail
      have hnotbad : ¬(status < 200 ∨ 300 ≤ status) := by omega
      have hnotbig : ¬(20 * 1024 * 1024 < bodyLen) := by omega
      unfold get_image
      simp [henv, hmem, hnone, hnet, hnotbad, hnotbig, hwfail]

/-! ### Concrete fixtures for the witnesses and counterexamples -/

def testImg : Img := { width := 4, height := 2, pixels := [1, 2, 3] }

def testKey : TileKey :=
  { year := 2, month := 1, day := 2, hour := 3, minute := 5,
    zoom := 7, x1 := 4, y1 := 6, x2 := 5, y2 := 8 }

def testEnv : Env := { user := some "u", xdgCacheHome := some "/c" }

def testNet : String → NetResult := fun _ => .response 200 5 (some testImg)

def emptyWorld : World :=
  { disk := { files := [], dirs := [], createDirFails := false,
              writeFails := false },
    fetchCount := 0 }

/-- C2 witness: a fresh world, a network that answers with a decodable 200
response; the first call succeeds and the idempotence theorem applies. -/
theorem get_image_idempotent_witness :
    (get_image testEnv testNet id FileContent.rgb testKey emptyWorld).1
        = .ok testImg ∧
    (get_image testEnv testNet id FileContent.rgb testKey
        ((get_image testEnv testNet id FileContent.rgb testKey emptyWorld).2)
      = (.ok testImg,
          (get_image testEnv testNet id FileContent.rgb testKey
            emptyWorld).2) ∧
    ((get_image testEnv testNet id FileContent.rgb testKey
        emptyWorld).2).fetchCount ≤ emptyWorld.fetchCount + 1) :=
  ⟨by decide,
    get_image_idempotent testEnv testNet id FileContent.rgb testKey emptyWorld
      testImg (by decide)⟩

/-- C9 witness: the ok-iff-RGB-artifact equivalence instantiated on a fresh
world. -/
theorem get_image_ok_iff_rgb_witness :
    (testEnv.user = some "u" ∧
      (lookupFC emptyWorld.disk.files
          (cacheFilePath "u" testEnv.xdgCacheHome testKey) = none ∨
        nuageCacheFolder "u" testEnv.xdgCacheHome ∈ emptyWorld.disk.dirs)) ∧
    ((get_image testEnv testNet id FileContent.rgb testKey emptyWorld).1
        = .ok testImg ↔
      lookupFC (get_image testEnv testNet id FileContent.rgb testKey
            emptyWorld).2.disk.files
          (cacheFilePath "u" testEnv.xdgCacheHome testKey)
        = some (.rgb testImg)) :=
  ⟨⟨rfl, Or.inl rfl⟩,
    get_image_ok_iff_rgb testEnv testNet id FileContent.rgb testKey emptyWorld
      "u" testImg rfl (Or.inl rfl)⟩

/-- C8 counterexample: with the `USER` environment variable unset,
`get_image` panics (the unconditional `std::env::var("USER").unwrap()`)
instead of returning an error value, for every input — refuting "no input
or environment state makes the acquisition path panic". -/
theorem get_image_user_unset_panics :
    (get_image { user := none, xdgCacheHome := none } testNet id
        FileContent.rgb testKey emptyWorld).1 = .panicked := by
  rfl

/-- C8 witness: the amended error-reporting theorem instantiated on a fresh
world with `USER` set. -/
theorem get_image_error_reporting_witness :
    testEnv.user = some "u" ∧
    ((get_image testEnv testNet id FileContent.rgb testKey emptyWorld).1
        ≠ .panicked ∧
      (nuageCacheFolder "u" testEnv.xdgCacheHome ∉ emptyWorld.disk.dirs →
        emptyWorld.disk.createDirFails = true →
        (get_image testEnv testNet id FileContent.rgb testKey emptyWorld).1
          = .err .createDirFailed) ∧
      (nuageCacheFolder "u" testEnv.xdgCacheHome ∈ emptyWorld.disk.dirs →
        lookupFC emptyWorld.disk.files
            (cacheFilePath "u" testEnv.xdgCacheHome testKey) = none →
        ((testNet (tileUrl testKey) = .transportError →
            (get_image testEnv testNet id FileContent.rgb testKey
              emptyWorld).1 = .err .networkError) ∧
          (∀ status bodyLen decodesTo,
            testNet (tileUrl testKey) = .response status bodyLen decodesTo →
            status < 200 ∨ 300 ≤ status →
            (get_image testEnv testNet id FileContent.rgb testKey
              emptyWorld).1 = .err (.httpStatus status)) ∧
          (∀ status bodyLen decodesTo,
            testNet (tileUrl testKey) = .response status bodyLen decodesTo →
            200 ≤ status → status < 300 → 20 * 1024 * 1024 < bodyLen →
            (get_image testEnv testNet id FileContent.rgb testKey
              emptyWorld).1 = .err .oversizedBody) ∧
          (∀ status bodyLen,
            testNet (tileUrl testKey) = .response status bodyLen none →
            200 ≤ status → status < 300 → bodyLen ≤ 20 * 1024 * 1024 →
            (get_image testEnv testNet id FileContent.rgb testKey
              emptyWorld).1 = .err .decodeFailed) ∧
          (∀ status bodyLen img,
            testNet (tileUrl testKey) = .response status bodyLen (some img) →
            200 ≤ status → status < 300 → bodyLen ≤ 20 * 1024 * 1024 →
            emptyWorld.disk.writeFails = true →
            (get_image testEnv testNet id FileContent.rgb testKey
              emptyWorld).1 = .err .saveFailed))) ∧
      (∀ fetch slots, (runWorker fetch slots).downloading = false)) :=
  ⟨rfl,
    get_image_error_reporting testEnv testNet id FileContent.rgb testKey
      emptyWorld "u" rfl⟩

end Nuage
